import Mathlib

/-!
Verification of the `lit` commit-message engine.

This file shallowly embeds the decision logic of `src/lingo.js`
(`generateConventionalCommit`, `fallbackCommitGeneration`,
`detectCommitType`, `generateBodyFromDiff`) and the interactive
confirmation flow of the `commit` action in `src/git.js`, and proves
the specification claims about them.

Strings are modelled as Lean `String`s (lists of characters); the
JavaScript word-boundary regexes `\b(...)\b` are modelled by an explicit
character scan with the JS `\w` word-character class; `^` with the `m`
flag is modelled by tracking line starts (after any JS line terminator).
-/

namespace Lit

/-- A commit candidate as produced by `lingo.js`: `{ title, body }`. -/
structure Commit where
  title : String
  body : String
deriving DecidableEq, Repr

/-- The Conventional-Commit type vocabulary enumerated by the spec. -/
def commitTypes : List String :=
  ["feat", "fix", "refactor", "docs", "chore", "test", "perf", "style"]

/-- JS `\w` character class: `[A-Za-z0-9_]`. -/
def isWordChar (c : Char) : Bool :=
  (('a' ≤ c && c ≤ 'z') || ('A' ≤ c && c ≤ 'Z') || ('0' ≤ c && c ≤ '9') || c = '_')

/-- JS line terminators (`\n`, `\r`, U+2028, U+2029), after which a
multiline `^` matches. -/
def isLineTerm (c : Char) : Bool :=
  c = '\n' || c = '\r' || c.val = 0x2028 || c.val = 0x2029

/-- `beginsWith w s` : the character list `s` starts with `w`. -/
def beginsWith : List Char → List Char → Bool
  | [], _ => true
  | _ :: _, [] => false
  | w :: ws, c :: cs => (w = c) && beginsWith ws cs

/-- The word `w` matches at the head of `s` with a word boundary after it
(the character following the match, if any, is not a word character). -/
def matchWordHere (w s : List Char) : Bool :=
  beginsWith w s &&
    (match s.drop w.length with
     | [] => true
     | c :: _ => !isWordChar c)

/-- Scan `s` for an occurrence of the word `w` with `\b` boundaries on both
sides; `prevWord` records whether the character before the current position
is a word character. -/
def hasWordAux (w : List Char) : Bool → List Char → Bool
  | _, [] => false
  | prevWord, c :: cs =>
    ((!prevWord) && matchWordHere w (c :: cs)) || hasWordAux w (isWordChar c) cs

/-- JS `lower.match(/\bw\b/) !== null` for a single keyword `w`. -/
def hasWord (w s : String) : Bool :=
  hasWordAux w.toList false s.toList

/-- JS `lower.match(/\b(w1|w2|...)\b/) !== null`. -/
def matchesAny (ws : List String) (s : String) : Bool :=
  ws.any (fun w => hasWord w s)

/-- `containsSubAux w s` : `w` occurs as a contiguous sublist of `s`. -/
def containsSubAux (w : List Char) : List Char → Bool
  | [] => beginsWith w []
  | c :: cs => beginsWith w (c :: cs) || containsSubAux w cs

/-- JS `s.includes(w)`. -/
def containsSub (s w : String) : Bool :=
  containsSubAux w.toList s.toList

/-- JS `s.toLowerCase()` (ASCII case folding suffices for this code). -/
def jsToLower (s : String) : String :=
  String.mk (s.toList.map Char.toLower)

/-- JS `s.substring(0, n)`. -/
def jsSubstring (s : String) (n : Nat) : String :=
  String.mk (s.toList.take n)

/-- Count the matches of the JS regex `/^m[^m]/gm` in a string: positions at
a line start holding the marker character `mark` followed by a character
different from `mark` (the `[^m]` class also matches a newline). -/
def countMarked (mark : Char) : Bool → List Char → Nat
  | _, [] => 0
  | atStart, c :: cs =>
    (if atStart && c = mark then
        match cs with
        | [] => 0
        | d :: _ => if d = mark then 0 else 1
      else 0) + countMarked mark (isLineTerm c) cs

/-- Addition count of `detectCommitType`: `(diff.match(/^\+[^+]/gm) || []).length`. -/
def countAdditions (diff : String) : Nat :=
  countMarked '+' true diff.toList

/-- Deletion count of `detectCommitType`: `(diff.match(/^-[^-]/gm) || []).length`. -/
def countDeletions (diff : String) : Nat :=
  countMarked '-' true diff.toList

/-- The diff test-path signal of `detectCommitType`:
`diff.includes('test/') || diff.includes('.test.') || diff.includes('.spec.')`. -/
def hasTestPathSignal (diff : String) : Bool :=
  containsSub diff "test/" || containsSub diff ".test." || containsSub diff ".spec."

/-- The diff doc-path signal of `detectCommitType`:
`diff.includes('README') || diff.includes('.md')`. -/
def hasDocPathSignal (diff : String) : Bool :=
  containsSub diff "README" || containsSub diff ".md"

/-- The keyword table of `detectCommitType`, in source order. -/
def keywordTable : List (String × List String) :=
  [("feat", ["add", "new", "create", "added", "created"]),
   ("fix", ["fix", "bug", "resolve", "patch", "correct"]),
   ("refactor", ["refactor", "restructure", "rewrite", "cleanup"]),
   ("docs", ["doc", "readme", "comment", "documentation"]),
   ("test", ["test", "spec", "testing"]),
   ("perf", ["perf", "performance", "optimize", "speed"]),
   ("style", ["style", "format", "lint"])]

/-- Whether any of the seven keyword patterns matches the lowercased message. -/
def anyKeywordMatch (lower : String) : Bool :=
  keywordTable.any (fun p => matchesAny p.2 lower)

/-- `detectCommitType(message, diff)` from `src/lingo.js`: keyword scan over
the lowercased message in fixed priority order, then diff path signals, then
the addition/deletion ratio, defaulting to `fix`. -/
def detectCommitType (message diff : String) : String :=
  let lowerMessage := jsToLower message
  if matchesAny ["add", "new", "create", "added", "created"] lowerMessage then "feat"
  else if matchesAny ["fix", "bug", "resolve", "patch", "correct"] lowerMessage then "fix"
  else if matchesAny ["refactor", "restructure", "rewrite", "cleanup"] lowerMessage then "refactor"
  else if matchesAny ["doc", "readme", "comment", "documentation"] lowerMessage then "docs"
  else if matchesAny ["test", "spec", "testing"] lowerMessage then "test"
  else if matchesAny ["perf", "performance", "optimize", "speed"] lowerMessage then "perf"
  else if matchesAny ["style", "format", "lint"] lowerMessage then "style"
  else if hasTestPathSignal diff then "test"
  else if hasDocPathSignal diff then "docs"
  else if countAdditions diff > countDeletions diff * 2 then "feat"
  else "fix"

/-- JS whitespace as removed by `trim`: space, tab, form feed, vertical
tab, no-break space, zero-width no-break space, and the line terminators. -/
def jsWhitespace (c : Char) : Bool :=
  c = ' ' || c = '\t' || c = '\x0b' || c = '\x0c' || c.val = 0xa0 ||
    c.val = 0xfeff || isLineTerm c

/-- JS `s.trim()`: strip leading and trailing whitespace. -/
def jsTrim (s : String) : String :=
  String.mk (((s.toList.dropWhile jsWhitespace).reverse.dropWhile jsWhitespace).reverse)

/-- JS `s.split(sep)` for a single separator character, accumulating the
current field in `acc` (in reverse). -/
def splitCharAux (sep : Char) : List Char → List Char → List String
  | [], acc => [String.mk acc.reverse]
  | c :: cs, acc =>
    if c = sep then String.mk acc.reverse :: splitCharAux sep cs []
    else splitCharAux sep cs (c :: acc)

/-- JS `s.split(sep)` for a single separator character. -/
def splitChar (sep : Char) (s : String) : List String :=
  splitCharAux sep s.toList []

/-- One changed-file entry of `generateBodyFromDiff`: for a line starting
with `diff --git`, the text captured by `/b\/(.*)/` (everything after the
first `b/`, up to a line terminator, since `.` excludes them). -/
def extractFile (line : String) : Option String :=
  if beginsWith ("diff --git").toList line.toList then
    match afterSub "b/".toList line.toList with
    | some rest => some (String.mk (rest.takeWhile (fun c => !isLineTerm c)))
    | none => none
  else none
where
  /-- The suffix after the first occurrence of `w`, if `w` occurs. -/
  afterSub (w : List Char) : List Char → Option (List Char)
    | [] => if w.isEmpty then some [] else none
    | c :: cs =>
      if beginsWith w (c :: cs) then some ((c :: cs).drop w.length)
      else afterSub w cs

/-- `generateBodyFromDiff(diff)` from `src/lingo.js`. -/
def generateBodyFromDiff (diff : String) : String :=
  let filesChanged := (splitChar '\n' diff).filterMap extractFile
  match filesChanged with
  | [] => "Update implementation"
  | [f] => "Update " ++ f
  | fs => "Update multiple files:\n" ++
      String.intercalate "\n" ((fs.take 5).map (fun f => "- " ++ f))

/-- `fallbackCommitGeneration(rawMessage, diff)` from `src/lingo.js`:
the heuristic classifier (`classify` in the spec). -/
def fallbackCommitGeneration (rawMessage diff : String) : Commit :=
  let cleanMessage := jsTrim rawMessage
  let type := detectCommitType cleanMessage diff
  let title := type ++ ": " ++ jsSubstring (jsToLower cleanMessage) 60
  let body := generateBodyFromDiff diff
  { title := title, body := body }

/-- JS truthiness of an optional string field of a parsed JSON payload:
a missing field and the empty string are falsy. -/
def jsTruthy : Option String → Bool
  | none => false
  | some s => !s.isEmpty

/-- Outcome of the remote call attempted inside the `try` block of
`generateConventionalCommit`: the fetch may reject (transport error, or the
15 s abort timer firing), the response may have a non-success status
(`!response.ok` throws), `response.json()` may reject on a non-JSON body,
or a JSON payload is parsed, carrying optional `title` and `body` fields. -/
inductive RemoteOutcome where
  | transportError
  | badStatus
  | jsonError
  | payload (title body : Option String)
deriving DecidableEq, Repr

/-- A remote outcome that the `catch` path (or the field validation that
throws into it) turns into the fallback. -/
def remoteFails : RemoteOutcome → Bool
  | .payload t b => !(jsTruthy t && jsTruthy b)
  | _ => true

/-- Result of the generation orchestrator, instrumented with whether the
network call was attempted (whether control entered the `try` block). -/
structure GenResult where
  result : Commit
  networkAttempted : Bool
deriving DecidableEq, Repr

/-- `generateConventionalCommit(rawMessage, diff)` from `src/lingo.js`,
with the environment reads `LINGO_API_URL` / `LINGO_API_KEY` passed as
explicit optional values and the remote interaction passed as its observed
outcome. Missing or empty credentials short-circuit to the fallback before
the `try` block; otherwise any throw inside `try` — transport error, abort,
non-ok status, JSON parse failure, or a payload with a falsy `title` or
`body` — lands in `catch`, which returns the fallback. -/
def generateConventionalCommit (apiUrl apiKey : Option String)
    (remote : RemoteOutcome) (rawMessage diff : String) : GenResult :=
  if !(jsTruthy apiUrl) || !(jsTruthy apiKey) then
    { result := fallbackCommitGeneration rawMessage diff, networkAttempted := false }
  else
    match remote with
    | .payload t b =>
      if !(jsTruthy t) || !(jsTruthy b) then
        { result := fallbackCommitGeneration rawMessage diff, networkAttempted := true }
      else
        { result := { title := t.getD "", body := b.getD "" }, networkAttempted := true }
    | _ => { result := fallbackCommitGeneration rawMessage diff, networkAttempted := true }

/-- A user decision at the `clack.select` preview prompt in `src/git.js`:
one of the three options, or the prompt being cancelled (`clack.isCancel`). -/
inductive SelectInput where
  | accept
  | edit
  | cancel
  | interrupted
deriving DecidableEq, Repr

/-- A user interaction with a `clack.text` prompt: a submitted string, or
cancellation (`clack.isCancel`). -/
inductive TextInput where
  | entered (s : String)
  | interrupted
deriving DecidableEq, Repr

/-- Terminal outcome of the confirmation flow: a single call to
`commitWithMessage(title, body)`, or exit with no commit. -/
inductive FlowOutcome where
  | committed (title body : String)
  | cancelled
deriving DecidableEq, Repr

/-- The confirmation flow of the `commit` action in `src/git.js`, from the
preview prompt onwards: cancel (selected or interrupted) exits without
committing; `edit` runs the title prompt then the body prompt, either of
which may be cancelled, exiting without committing; otherwise
`commitWithMessage` is invoked once with the final title and body. -/
def runConfirmFlow (result : Commit) (action : SelectInput)
    (titleInput bodyInput : TextInput) : FlowOutcome :=
  if action = .interrupted ∨ action = .cancel then .cancelled
  else if action = .edit then
    match titleInput with
    | .interrupted => .cancelled
    | .entered t =>
      match bodyInput with
      | .interrupted => .cancelled
      | .entered b => .committed t b
  else .committed result.title result.body

/-- Number of `commitWithMessage` invocations a flow outcome performs. -/
def commitInvocations : FlowOutcome → Nat
  | .committed _ _ => 1
  | .cancelled => 0

/-- Configuration of a `clack.text` prompt as used by the edit path:
its pre-filled default value and its validation callback (`none` means the
input is valid; a message blocks submission and is shown as an error). -/
structure TextPromptCfg where
  defaultValue : String
  validate : String → Option String

/-- The validation callback of the replacement-title prompt in `src/git.js`:
empty titles and titles longer than 72 characters both return an error
message. -/
def editTitleValidate (value : String) : Option String :=
  if value.isEmpty then some "Title is required"
  else if value.length > 72 then some "Title should be under 72 characters"
  else none

/-- The replacement-title prompt of the edit path. -/
def titlePromptCfg (result : Commit) : TextPromptCfg :=
  { defaultValue := result.title, validate := editTitleValidate }

/-- The replacement-body prompt of the edit path: no validation callback,
default pre-filled with the candidate body. -/
def bodyPromptCfg (result : Commit) : TextPromptCfg :=
  { defaultValue := result.body, validate := fun _ => none }

/-- A `clack.text` prompt accepts a submitted value exactly when its
validation callback returns no error message. -/
def promptAccepts (cfg : TextPromptCfg) (value : String) : Bool :=
  (cfg.validate value).isNone

/-! ### Helper lemmas -/

/-- Unfolding lemma for `detectCommitType` with the intermediate
`lowerMessage` binding expanded. -/
theorem detectCommitType_eq (message diff : String) :
    detectCommitType message diff =
      (if matchesAny ["add", "new", "create", "added", "created"] (jsToLower message) then "feat"
      else if matchesAny ["fix", "bug", "resolve", "patch", "correct"] (jsToLower message) then "fix"
      else if matchesAny ["refactor", "restructure", "rewrite", "cleanup"] (jsToLower message) then "refactor"
      else if matchesAny ["doc", "readme", "comment", "documentation"] (jsToLower message) then "docs"
      else if matchesAny ["test", "spec", "testing"] (jsToLower message) then "test"
      else if matchesAny ["perf", "performance", "optimize", "speed"] (jsToLower message) then "perf"
      else if matchesAny ["style", "format", "lint"] (jsToLower message) then "style"
      else if hasTestPathSignal diff then "test"
      else if hasDocPathSignal diff then "docs"
      else if countAdditions diff > countDeletions diff * 2 then "feat"
      else "fix") := rfl

/-- `detectCommitType` only ever returns one of its seven literal results. -/
theorem detect_mem_seven (msg diff : String) :
    detectCommitType msg diff ∈
      (["feat", "fix", "refactor", "docs", "test", "perf", "style"] : List String) := by
  rw [detectCommitType_eq]
  repeat' split
  all_goals simp

/-- Truthiness of a present string field. -/
theorem jsTruthy_some (s : String) : jsTruthy (some s) = !s.isEmpty := rfl

/-- The empty string is falsy. -/
theorem isEmpty_empty_str : ("" : String).isEmpty = true := rfl

/-- The truncation `substring(0, n)` yields at most `n` characters. -/
theorem jsSubstring_length_le (s : String) (n : Nat) : (jsSubstring s n).length ≤ n := by
  simp only [jsSubstring, String.length, String.mk, List.length_take]
  exact Nat.min_le_left _ _

/-- Length of the fallback title in terms of its three parts. -/
theorem fallback_title_length (raw diff : String) :
    (fallbackCommitGeneration raw diff).title.length =
      (detectCommitType (jsTrim raw) diff).length + 2 +
        (jsSubstring (jsToLower (jsTrim raw)) 60).length := by
  show (detectCommitType (jsTrim raw) diff ++ ": " ++ jsSubstring (jsToLower (jsTrim raw)) 60).length = _
  simp [String.length_append]
  rfl

/-! ### Claims -/

/-- C2: the heuristic fallback classifier is total and always valid: for
every pair of inputs, `fallbackCommitGeneration` returns a commit whose
detected type is in the enumerated set, whose title is non-empty and at
most 72 characters, and whose body is present. -/
theorem fallback_total_and_valid (raw diff : String) :
    detectCommitType (jsTrim raw) diff ∈ commitTypes ∧
    (fallbackCommitGeneration raw diff).title ≠ "" ∧
    (fallbackCommitGeneration raw diff).title.length ≤ 72 ∧
    (fallbackCommitGeneration raw diff).body = generateBodyFromDiff diff := by
  have hmem := detect_mem_seven (jsTrim raw) diff
  have hlen8 : (detectCommitType (jsTrim raw) diff).length ≤ 8 := by
    simp only [List.mem_cons, List.not_mem_nil, or_false] at hmem
    rcases hmem with h | h | h | h | h | h | h <;> rw [h] <;> decide
  have hsub : (jsSubstring (jsToLower (jsTrim raw)) 60).length ≤ 60 :=
    jsSubstring_length_le _ _
  have htl := fallback_title_length raw diff
  refine ⟨?_, ?_, ?_, rfl⟩
  · have hsubset : ∀ t ∈ (["feat", "fix", "refactor", "docs", "test", "perf", "style"] :
        List String), t ∈ commitTypes := by decide
    exact hsubset _ hmem
  · intro h
    have h0 : ("" : String).length = 0 := rfl
    rw [h, h0] at htl
    omega
  · omega

/-- C2 witness: the guarantees instantiated at a concrete input. -/
theorem fallback_total_and_valid_witness :
    detectCommitType (jsTrim "added stuff") "" ∈ commitTypes ∧
    (fallbackCommitGeneration "added stuff" "").title ≠ "" ∧
    (fallbackCommitGeneration "added stuff" "").title.length ≤ 72 ∧
    (fallbackCommitGeneration "added stuff" "").body = generateBodyFromDiff "" :=
  fallback_total_and_valid "added stuff" ""

/-- C10: the heuristic classifier never produces the type `chore`: its
output always lies in the seven-element set `feat`, `fix`, `refactor`,
`docs`, `test`, `perf`, `style`. -/
theorem detect_type_never_chore (msg diff : String) :
    detectCommitType msg diff ∈
      (["feat", "fix", "refactor", "docs", "test", "perf", "style"] : List String) ∧
    detectCommitType msg diff ≠ "chore" := by
  have h := detect_mem_seven msg diff
  refine ⟨h, ?_⟩
  simp only [List.mem_cons, List.not_mem_nil, or_false] at h
  rcases h with h | h | h | h | h | h | h <;> rw [h] <;> decide

/-- C10 witness: the statement instantiated at a concrete input. -/
theorem detect_type_never_chore_witness :
    detectCommitType "zzz" "" ∈
      (["feat", "fix", "refactor", "docs", "test", "perf", "style"] : List String) ∧
    detectCommitType "zzz" "" ≠ "chore" :=
  detect_type_never_chore "zzz" ""

/-- C1: the generation orchestrator is total — its result is always either
the fallback commit or a validated remote payload — and when the endpoint
URL or the API key is absent (falsy) it returns the fallback without
attempting the network call, and under any remote failure its result is
exactly the fallback classifier applied to the same inputs. -/
theorem generate_total_short_circuits_and_falls_back (url key : Option String)
    (remote : RemoteOutcome) (raw diff : String) :
    ((generateConventionalCommit url key remote raw diff).result =
        fallbackCommitGeneration raw diff ∨
      ∃ t b, remote = RemoteOutcome.payload (some t) (some b) ∧
        (generateConventionalCommit url key remote raw diff).result = ⟨t, b⟩) ∧
    ((!(jsTruthy url) || !(jsTruthy key)) = true →
      (generateConventionalCommit url key remote raw diff).networkAttempted = false ∧
      (generateConventionalCommit url key remote raw diff).result =
        fallbackCommitGeneration raw diff) ∧
    (remoteFails remote = true →
      (generateConventionalCommit url key remote raw diff).result =
        fallbackCommitGeneration raw diff) := by
  cases hcred : (!(jsTruthy url) || !(jsTruthy key)) with
  | true => simp [generateConventionalCommit, hcred]
  | false =>
    cases remote with
    | payload t b =>
      cases hval : (!(jsTruthy t) || !(jsTruthy b)) with
      | true =>
        have hres : (generateConventionalCommit url key
            (RemoteOutcome.payload t b) raw diff).result =
              fallbackCommitGeneration raw diff := by
          simp [generateConventionalCommit, hcred, hval]
        refine ⟨Or.inl hres, ?_, fun _ => hres⟩
        intro h
        exact Bool.noConfusion h
      | false =>
        have ht : jsTruthy t = true := by
          cases hjt : jsTruthy t
          · rw [hjt] at hval; simp at hval
          · rfl
        have hb : jsTruthy b = true := by
          cases hjb : jsTruthy b
          · rw [hjb] at hval; simp at hval
          · rfl
        obtain ⟨ts, rfl⟩ : ∃ s, t = some s := by
          cases t with
          | none => simp [jsTruthy] at ht
          | some s => exact ⟨s, rfl⟩
        obtain ⟨bs, rfl⟩ : ∃ s, b = some s := by
          cases b with
          | none => simp [jsTruthy] at hb
          | some s => exact ⟨s, rfl⟩
        refine ⟨Or.inr ⟨ts, bs, rfl, ?_⟩, ?_, ?_⟩
        · simp [generateConventionalCommit, hcred, ht, hb]
        · intro h
          exact Bool.noConfusion h
        · intro h
          exact absurd h (by simp [remoteFails, ht, hb])
    | transportError => simp [generateConventionalCommit, hcred, remoteFails]
    | badStatus => simp [generateConventionalCommit, hcred, remoteFails]
    | jsonError => simp [generateConventionalCommit, hcred, remoteFails]

/-- C1 witness: with a missing endpoint URL and a transport failure, the
orchestrator does not attempt the network and returns the fallback. -/
theorem generate_total_short_circuits_and_falls_back_witness :
    ((generateConventionalCommit none (some "k")
        RemoteOutcome.transportError "added x" "d").networkAttempted = false ∧
      (generateConventionalCommit none (some "k")
        RemoteOutcome.transportError "added x" "d").result =
        fallbackCommitGeneration "added x" "d") ∧
    (generateConventionalCommit none (some "k")
        RemoteOutcome.transportError "added x" "d").result =
      fallbackCommitGeneration "added x" "d" :=
  ⟨(generate_total_short_circuits_and_falls_back none (some "k")
      RemoteOutcome.transportError "added x" "d").2.1 (by decide),
    (generate_total_short_circuits_and_falls_back none (some "k")
      RemoteOutcome.transportError "added x" "d").2.2 (by decide)⟩

/-- C3: in every run of the confirmation flow the commit operation is
invoked at most once, and only after the user selects Accept or completes
both edit prompts; cancelling at the preview step or at either edit prompt
yields zero commit invocations. -/
theorem commit_invoked_at_most_once (result : Commit) (action : SelectInput)
    (titleInput bodyInput : TextInput) :
    commitInvocations (runConfirmFlow result action titleInput bodyInput) ≤ 1 ∧
    (action = SelectInput.cancel ∨ action = SelectInput.interrupted →
      commitInvocations (runConfirmFlow result action titleInput bodyInput) = 0) ∧
    (action = SelectInput.edit →
      titleInput = TextInput.interrupted ∨ bodyInput = TextInput.interrupted →
      commitInvocations (runConfirmFlow result action titleInput bodyInput) = 0) ∧
    (commitInvocations (runConfirmFlow result action titleInput bodyInput) = 1 →
      action = SelectInput.accept ∨
        (action = SelectInput.edit ∧ (∃ t, titleInput = TextInput.entered t) ∧
          ∃ b, bodyInput = TextInput.entered b)) := by
  cases action <;> cases titleInput <;> cases bodyInput <;>
    simp [runConfirmFlow, commitInvocations]

/-- C3 witness: cancel at the preview step and cancel at the title prompt
each yield zero commit invocations. -/
theorem commit_invoked_at_most_once_witness :
    commitInvocations (runConfirmFlow ⟨"t", "b"⟩ SelectInput.cancel
      (TextInput.entered "x") (TextInput.entered "y")) = 0 ∧
    commitInvocations (runConfirmFlow ⟨"t", "b"⟩ SelectInput.edit
      TextInput.interrupted (TextInput.entered "y")) = 0 :=
  ⟨(commit_invoked_at_most_once ⟨"t", "b"⟩ SelectInput.cancel
      (TextInput.entered "x") (TextInput.entered "y")).2.1 (Or.inl rfl),
    (commit_invoked_at_most_once ⟨"t", "b"⟩ SelectInput.edit
      TextInput.interrupted (TextInput.entered "y")).2.2.1 rfl (Or.inl rfl)⟩

/-- C9 counterexample: a 73-character replacement title is rejected by the
title prompt validation callback — the over-72 check blocks submission
exactly like the non-empty check, it is not a soft warning. -/
theorem over_72_title_blocked :
    promptAccepts (titlePromptCfg ⟨"t", "b"⟩) (String.mk (List.replicate 73 'a')) = false ∧
    (String.mk (List.replicate 73 'a')).length = 73 ∧
    editTitleValidate (String.mk (List.replicate 73 'a')) =
      some "Title should be under 72 characters" := by
  refine ⟨?_, ?_, ?_⟩ <;> decide

/-- C9 amended: the replacement-title prompt accepts a submitted title
exactly when it is non-empty and at most 72 characters — both checks run
in the same validation callback and both block submission — while the
replacement-body prompt accepts any text, and both prompts pre-fill the
candidate title and body respectively as defaults. -/
theorem edit_prompts_validation (r : Commit) (s : String) :
    (promptAccepts (titlePromptCfg r) s = true ↔ s.isEmpty = false ∧ s.length ≤ 72) ∧
    promptAccepts (bodyPromptCfg r) s = true ∧
    (titlePromptCfg r).defaultValue = r.title ∧
    (bodyPromptCfg r).defaultValue = r.body := by
  refine ⟨?_, rfl, rfl, rfl⟩
  unfold promptAccepts titlePromptCfg editTitleValidate
  by_cases he : s.isEmpty = true
  · simp [he]
  · by_cases hl : s.length > 72
    · simp [he, hl]
    · simp [he, hl]
      omega

/-- C7: keyword classification follows the fixed priority order with first
match winning over a lowercased copy of the message: the three concrete
inputs classify as `feat`, `fix` and `refactor`, and a message matching no
keyword set whose diff contains a path with `.spec.` classifies as `test`. -/
theorem keyword_priority :
    detectCommitType "added new dashboard" "" = "feat" ∧
    detectCommitType "fix bug in login" "" = "fix" ∧
    detectCommitType "refactor cleanup module" "" = "refactor" ∧
    ∀ msg diff, anyKeywordMatch (jsToLower msg) = false →
      containsSub diff ".spec." = true →
      detectCommitType msg diff = "test" := by
  refine ⟨by decide, by decide, by decide, ?_⟩
  intro msg diff hkw hspec
  simp [anyKeywordMatch, keywordTable] at hkw
  obtain ⟨h1, h2, h3, h4, h5, h6, h7⟩ := hkw
  rw [detectCommitType_eq]
  simp [h1, h2, h3, h4, h5, h6, h7, hasTestPathSignal, hspec]

/-- C7 witness: a message with no keyword and a diff touching a `.spec.`
path classifies as `test`. -/
theorem keyword_priority_witness :
    detectCommitType "zzz" "a.spec.js" = "test" :=
  keyword_priority.2.2.2 "zzz" "a.spec.js" (by decide) (by decide)

/-- A diff with ten addition lines and two deletion lines and no test or
doc path signals. -/
def tenTwoDiff : String :=
  "+a\n+a\n+a\n+a\n+a\n+a\n+a\n+a\n+a\n+a\n-x\n-x\n"

/-- A diff with three addition lines and three deletion lines and no test
or doc path signals. -/
def threeThreeDiff : String := "+a\n+a\n+a\n-x\n-x\n-x\n"

/-- C8: on the no-keyword, no-path-signal branch the classifier returns
`feat` exactly when the addition count exceeds twice the deletion count,
and `fix` otherwise, where the counts come from the `^\+[^+]` and `^-[^-]`
line scans that exclude the `+++`/`---` file-header lines; ten additions
against two deletions yield `feat` and three against three yield `fix`. -/
theorem diff_ratio_fallback :
    (∀ msg diff, anyKeywordMatch (jsToLower msg) = false →
      hasTestPathSignal diff = false → hasDocPathSignal diff = false →
      detectCommitType msg diff =
        (if countAdditions diff > countDeletions diff * 2 then "feat" else "fix")) ∧
    countAdditions tenTwoDiff = 10 ∧ countDeletions tenTwoDiff = 2 ∧
    detectCommitType "zzz" tenTwoDiff = "feat" ∧
    countAdditions threeThreeDiff = 3 ∧ countDeletions threeThreeDiff = 3 ∧
    detectCommitType "zzz" threeThreeDiff = "fix" ∧
    countAdditions "+++ b/f\n" = 0 ∧ countDeletions "--- a/f\n" = 0 := by
  refine ⟨?_, by decide, by decide, by decide, by decide, by decide, by decide,
    by decide, by decide⟩
  intro msg diff hkw hts hds
  simp [anyKeywordMatch, keywordTable] at hkw
  obtain ⟨h1, h2, h3, h4, h5, h6, h7⟩ := hkw
  rw [detectCommitType_eq]
  simp [h1, h2, h3, h4, h5, h6, h7, hts, hds]

/-- C8 witness: the ratio rule instantiated at the ten-against-two diff. -/
theorem diff_ratio_fallback_witness :
    detectCommitType "zzz" tenTwoDiff =
      (if countAdditions tenTwoDiff > countDeletions tenTwoDiff * 2 then "feat" else "fix") :=
  diff_ratio_fallback.1 "zzz" tenTwoDiff (by decide) (by decide) (by decide)

/-- C4 counterexample: a remote payload whose title has 80 characters is
accepted and surfaced unchanged — no title-length check runs on remote
candidates — instead of being discarded for the fallback, whose title here
is the 8-character `fix: zzz`. -/
theorem long_remote_title_surfaced :
    (generateConventionalCommit (some "u") (some "k")
        (RemoteOutcome.payload (some (String.mk (List.replicate 80 'a'))) (some "b"))
        "zzz" "").result =
      ⟨String.mk (List.replicate 80 'a'), "b"⟩ ∧
    (String.mk (List.replicate 80 'a')).length = 80 ∧
    (fallbackCommitGeneration "zzz" "").title = "fix: zzz" := by
  refine ⟨by decide, by decide, by decide⟩

/-- C4 amended: the remote response validation checks only that the
`title` and `body` fields are present and non-empty; any such payload is
accepted and surfaced as-is, with no bound on the title length, so a title
longer than 72 characters reaches the user instead of being discarded. -/
theorem remote_validation_ignores_title_length (url key : Option String)
    (t b raw diff : String) (hu : jsTruthy url = true) (hk : jsTruthy key = true)
    (ht : t.isEmpty = false) (hb : b.isEmpty = false) :
    (generateConventionalCommit url key
        (RemoteOutcome.payload (some t) (some b)) raw diff).result = ⟨t, b⟩ := by
  simp [generateConventionalCommit, jsTruthy_some, hu, hk, ht, hb]

/-- C4 amended witness: an 80-character remote title is surfaced as-is. -/
theorem remote_validation_ignores_title_length_witness :
    (generateConventionalCommit (some "u") (some "k")
        (RemoteOutcome.payload (some (String.mk (List.replicate 80 'x'))) (some "bb"))
        "m" "d").result = ⟨String.mk (List.replicate 80 'x'), "bb"⟩ :=
  remote_validation_ignores_title_length (some "u") (some "k")
    (String.mk (List.replicate 80 'x')) "bb" "m" "d"
    (by decide) (by decide) (by decide) (by decide)

/-- C5 counterexample: a remote title embedding the non-enumerated label
`foo:` is accepted and surfaced unchanged; the remote result is not
rejected in favour of the heuristic fallback, whose title here would have
been `fix: zzz`. -/
theorem unknown_label_title_surfaced :
    commitTypes.contains "foo" = false ∧
    (generateConventionalCommit (some "u") (some "k")
        (RemoteOutcome.payload (some "foo: add dark mode") (some "b")) "zzz" "").result =
      ⟨"foo: add dark mode", "b"⟩ ∧
    (fallbackCommitGeneration "zzz" "").title = "fix: zzz" := by
  refine ⟨by decide, by decide, by decide⟩

/-- C5 amended: no check inspects a type label embedded in a remote title:
for every label outside the enumerated set, a payload whose title is the
label followed by a colon and the rest is accepted and surfaced as-is,
with a non-empty body, instead of being treated as unavailable. -/
theorem embedded_label_not_validated (url key : Option String)
    (label rest b raw diff : String) (hu : jsTruthy url = true)
    (hk : jsTruthy key = true) (hb : b.isEmpty = false)
    (hlabel : label ∉ commitTypes) :
    (generateConventionalCommit url key
        (RemoteOutcome.payload (some (label ++ ": " ++ rest)) (some b)) raw diff).result =
      ⟨label ++ ": " ++ rest, b⟩ := by
  have hne : (label ++ ": " ++ rest).isEmpty = false := by
    cases hq : (label ++ ": " ++ rest).isEmpty
    · rfl
    · exfalso
      have hempty : label ++ ": " ++ rest = "" := (String.isEmpty_iff _).mp hq
      have hlen := congrArg String.length hempty
      simp only [String.length_append] at hlen
      have h2 : (": " : String).length = 2 := rfl
      have h0 : ("" : String).length = 0 := rfl
      omega
  simp [generateConventionalCommit, jsTruthy_some, hu, hk, hne, hb]

/-- C5 amended witness: a `foo:`-labelled remote title is surfaced. -/
theorem embedded_label_not_validated_witness :
    (generateConventionalCommit (some "u2") (some "k2")
        (RemoteOutcome.payload (some ("foo" ++ ": " ++ "dark mode")) (some "bb"))
        "mm" "dd").result = ⟨"foo" ++ ": " ++ "dark mode", "bb"⟩ :=
  embedded_label_not_validated (some "u2") (some "k2") "foo" "dark mode" "bb" "mm" "dd"
    (by decide) (by decide) (by decide) (by decide)

/-- C6 counterexample: a remote payload with a non-empty title and an
empty-string body is rejected — the empty string fails the truthiness
check — and the heuristic fallback is returned instead of the remote
result. -/
theorem empty_body_payload_falls_back :
    (generateConventionalCommit (some "u") (some "k")
        (RemoteOutcome.payload (some "update things") (some "")) "zzz" "").result =
      fallbackCommitGeneration "zzz" "" ∧
    (generateConventionalCommit (some "u") (some "k")
        (RemoteOutcome.payload (some "update things") (some "")) "zzz" "").result.title =
      "fix: zzz" := by
  refine ⟨by decide, by decide⟩

/-- C6 amended: the validation rejects an empty-string body: for every
payload whose body field equals the empty string, the candidate is
discarded and the fallback result is returned, whatever the title. -/
theorem empty_string_body_rejected (url key : Option String) (t raw diff : String)
    (hu : jsTruthy url = true) (hk : jsTruthy key = true) :
    (generateConventionalCommit url key
        (RemoteOutcome.payload (some t) (some "")) raw diff).result =
      fallbackCommitGeneration raw diff := by
  simp [generateConventionalCommit, jsTruthy_some, hu, hk, isEmpty_empty_str]

/-- C6 amended witness: an empty-string body falls back at a concrete
input. -/
theorem empty_string_body_rejected_witness :
    (generateConventionalCommit (some "u3") (some "k3")
        (RemoteOutcome.payload (some "tt") (some "")) "m3" "d3").result =
      fallbackCommitGeneration "m3" "d3" :=
  empty_string_body_rejected (some "u3") (some "k3") "tt" "m3" "d3"
    (by decide) (by decide)

end Lit
